import Mathlib

/-
Verification development for the AI-Coworker-Engine repository.

The Python source is shallowly embedded: pure functions become Lean
functions, stateful methods become explicit state-passing functions on
structure types mirroring the pydantic models.  Python strings are Lean
strings (lists of characters); Python integers are Lean Int; Python
dictionaries are association lists updated in place; timestamps that only
feed arithmetic (the rate limiter) are explicit Int parameters, and
timestamps that are pure metadata (created_at and friends) are omitted.
-/

/- ===================== String helpers (Python semantics) ===================== -/

/-- Boolean prefix test on character lists. -/
def isPrefixOfB : List Char → List Char → Bool
  | [], _ => true
  | _ :: _, [] => false
  | a :: as, b :: bs => a == b && isPrefixOfB as bs

/-- Boolean substring test on character lists: Python `needle in hay`. -/
def containsSub (needle : List Char) : List Char → Bool
  | [] => needle.isEmpty
  | c :: t => isPrefixOfB needle (c :: t) || containsSub needle t

/-- Python `needle in hay` on strings. -/
def pyContains (hay needle : String) : Bool :=
  containsSub needle.toList hay.toList

/-- Python `str.lower()` (ASCII case folding, which covers every string the
embedded code compares). -/
def pyLower (s : String) : String :=
  String.mk (s.toList.map Char.toLower)

/-- Number of starting positions at which `needle` occurs in `hay`; used only
to state the claimed (occurrence-counting) sentiment rule. -/
def occCount (needle : String) (hay : String) : Nat :=
  countAux needle.toList hay.toList
where
  countAux (nd : List Char) : List Char → Nat
    | [] => if nd.isEmpty then 1 else 0
    | c :: t => (if isPrefixOfB nd (c :: t) then 1 else 0) + countAux nd t

/-- Word count of Python `str.split()` (split on whitespace runs, dropping
empty pieces): counts maximal non-whitespace runs. -/
def wordCountAux : List Char → Bool → Nat
  | [], _ => 0
  | c :: t, inWord =>
    if c.isWhitespace then wordCountAux t false
    else (if inWord then 0 else 1) + wordCountAux t true

/-- Length of Python `s.split()`. -/
def wordCount (s : String) : Nat :=
  wordCountAux s.toList false

/-- Python `str.split(sep)` for a one-character separator, on char lists. -/
def splitOnCharList (sep : Char) : List Char → List (List Char)
  | [] => [[]]
  | c :: t =>
    let r := splitOnCharList sep t
    if c == sep then [] :: r
    else
      match r with
      | [] => [[c]]
      | h :: t2 => (c :: h) :: t2

/-- Python `s.split(":")` on strings. -/
def pySplitColon (s : String) : List String :=
  (splitOnCharList ':' s.toList).map String.mk

/-- Remove every (leftmost-first, non-overlapping) occurrence of `old` from
the list, as Python `s.replace(old, "")` does.  The Nat argument is the
number of characters of a just-matched occurrence still to be consumed
(0 outside a match); a guard keeps the empty pattern a no-op. -/
def removeAllAux (old : List Char) : List Char → Nat → List Char
  | [], _ => []
  | _ :: t, Nat.succ k => removeAllAux old t k
  | c :: t, 0 =>
    if old ≠ [] ∧ isPrefixOfB old (c :: t) = true then
      removeAllAux old t (old.length - 1)
    else
      c :: removeAllAux old t 0

/-- Python `s.replace(old, "")` on strings. -/
def pyRemoveAll (old : String) (s : String) : String :=
  String.mk (removeAllAux old.toList s.toList 0)

/-- Python slice `s[:k]` for an arbitrary integer bound `k` (negative bounds
count from the end, clamped at 0). -/
def pySliceTo (s : String) (k : Int) : String :=
  let n : Int := s.length
  let idx : Int := if k < 0 then max 0 (n + k) else min k n
  String.mk (s.toList.take idx.toNat)

/- ===================== Data model (src/models) ===================== -/

/-- RelationshipState (src/models/state.py): score defaults to 0, clamped by
the pydantic bounds to [-10, 10]. -/
structure RelationshipStateM where
  npc_id : String
  score : Int
  interaction_count : Int
  last_sentiment : Option String
deriving Repr, DecidableEq

/-- A freshly constructed RelationshipState(npc_id=npc): all defaults. -/
def mkRelationshipState (npc : String) : RelationshipStateM :=
  { npc_id := npc, score := 0, interaction_count := 0, last_sentiment := none }

/-- ProgressState (src/models/state.py). -/
structure ProgressStateM where
  current_module : Int
  completed_tasks : List String
  current_task : Option String
deriving Repr, DecidableEq

/-- Message (src/models/state.py); the creation timestamp is pure metadata
and is omitted; the metadata dict is a key-value list (it only ever carries
the sentiment label). -/
structure MessageM where
  role : String
  content : String
  npc_id : Option String
  metadata : List (String × String)
deriving Repr, DecidableEq

/-- SessionState (src/models/state.py); created_at and updated_at timestamps
are pure metadata and are omitted. -/
structure SessionStateM where
  session_id : String
  user_id : String
  simulation_id : String
  conversation_history : List MessageM
  active_npc : Option String
  relationships : List (String × RelationshipStateM)
  progress : ProgressStateM
  stuck_loop_count : Int
  safety_flags : List String
deriving Repr, DecidableEq

/-- A fresh session with all defaulted fields. -/
def mkSessionState (sid uid : String) : SessionStateM :=
  { session_id := sid, user_id := uid, simulation_id := "gucci_hrm_leadership",
    conversation_history := [], active_npc := none, relationships := [],
    progress := { current_module := 1, completed_tasks := [], current_task := none },
    stuck_loop_count := 0, safety_flags := [] }

/-- First-match lookup in an association list: Python `d[k]` / `k in d` for a
dict with unique keys. -/
def assocLookup {α : Type} (k : String) : List (String × α) → Option α
  | [] => none
  | (k2, v) :: t => if k2 = k then some v else assocLookup k t

/-- In-place update of the first entry with the given key: Python
`d[k] = f(d[k])` for a present key. -/
def assocUpdate {α : Type} (k : String) (f : α → α) : List (String × α) → List (String × α)
  | [] => []
  | (k2, v) :: t => if k2 = k then (k2, f v) :: t else (k2, v) :: assocUpdate k f t

/-- Python `d[k] = v`: replace the first entry with the key, or append a new
entry when the key is absent. -/
def assocSet {α : Type} (k : String) (v : α) : List (String × α) → List (String × α)
  | [] => [(k, v)]
  | (k2, v2) :: t => if k2 = k then (k2, v) :: t else (k2, v2) :: assocSet k v t

/-- SessionState.add_message: append to the history; bump the interaction
count when the message carries a truthy npc_id that is a known relationship. -/
def add_message (s : SessionStateM) (m : MessageM) : SessionStateM :=
  let s1 := { s with conversation_history := s.conversation_history ++ [m] }
  let nid := m.npc_id.getD ""
  if nid ≠ "" ∧ (assocLookup nid s1.relationships).isSome then
    let bump := fun r : RelationshipStateM =>
      { r with interaction_count := r.interaction_count + 1 }
    { s1 with relationships := assocUpdate nid bump s1.relationships }
  else s1

/-- SessionState.get_recent_history: Python `history[-n:]`. -/
def get_recent_history (s : SessionStateM) (n : Nat) : List MessageM :=
  s.conversation_history.drop (s.conversation_history.length - n)

/-- SessionState.update_relationship_score: lazily create the relationship,
then clamp the incremented score into [-10, 10]. -/
def update_relationship_score (s : SessionStateM) (npc_id : String) (delta : Int) :
    SessionStateM :=
  let rels :=
    if (assocLookup npc_id s.relationships).isNone then
      s.relationships ++ [(npc_id, mkRelationshipState npc_id)]
    else s.relationships
  let current := ((assocLookup npc_id rels).getD (mkRelationshipState npc_id)).score
  let new_score := max (-10) (min 10 (current + delta))
  { s with relationships := assocUpdate npc_id (fun r => { r with score := new_score }) rels }

/- ===================== UserProfile (src/models/user_profile.py) ===================== -/

/-- The AccessibilityNeeds fields read by the embedded queries. -/
structure AccessibilityNeedsM where
  cognitive_support_needed : Bool
  simple_language_preferred : Bool
deriving Repr, DecidableEq

/-- The AgeGroup fields read by the embedded queries; vocabulary_complexity
is one of "simple", "moderate", "advanced" (default "advanced"). -/
structure AgeGroupM where
  vocabulary_complexity : String
deriving Repr, DecidableEq

/-- The UserProfile fields read by the embedded queries; age is an optional
Python int. -/
structure UserProfileM where
  user_id : String
  age : Option Int
  age_group : AgeGroupM
  accessibility : AccessibilityNeedsM
deriving Repr, DecidableEq

/-- Python truthiness-guarded comparison `self.age and self.age < bound`:
false when age is None or 0. -/
def ageTruthyLt (age : Option Int) (bound : Int) : Bool :=
  match age with
  | none => false
  | some a => decide (a ≠ 0 ∧ a < bound)

/-- UserProfile.get_adapted_complexity. -/
def get_adapted_complexity (p : UserProfileM) : String :=
  if p.accessibility.simple_language_preferred then "simple"
  else if ageTruthyLt p.age 13 then "simple"
  else if ageTruthyLt p.age 16 then "moderate"
  else p.age_group.vocabulary_complexity

/- ===================== NPC agent (src/agents/npc_agent.py) ===================== -/

/-- The PersonaConfig fields read by the embedded agent code. -/
structure PersonaConfigM where
  npc_id : String
  name : String
  role : String
  system_prompt : String
deriving Repr, DecidableEq

/-- The fixed jailbreak phrase list of NPCAgent._safety_check. -/
def jailbreak_patterns : List String :=
  ["ignore previous instructions", "ignore all previous", "you are now",
   "forget your role", "disregard your", "new instructions:", "system:", "override"]

/-- NPCAgent._safety_check: "too_long" for messages over 2000 characters,
then a single "jailbreak" flag when any pattern occurs in the lower-cased
message. -/
def safety_check (user_message : String) : List String :=
  (if 2000 < user_message.length then ["too_long"] else []) ++
    (if jailbreak_patterns.any (fun p => pyContains (pyLower user_message) p) then
      ["jailbreak"]
    else [])

/-- NPCAgent._generate_safety_response. -/
def generate_safety_response (persona : PersonaConfigM) (flags : List String) : String :=
  if flags.contains "jailbreak" then
    "I appreciate your creativity, but I need to stay in character as " ++
      persona.name ++ ", " ++ persona.role ++
      ". Let\x27s focus on the leadership development challenge at hand. " ++
      "What aspect would you like to explore?"
  else if flags.contains "too_long" then
    "That\x27s quite a detailed message! Could you break it down into smaller questions? " ++
      "I want to make sure I address each point properly."
  else
    "I\x27m here to help with the Gucci leadership development simulation. " ++
      "What would you like to discuss?"

/-- The positive cue-word list of NPCAgent._analyze_sentiment. -/
def positive_keywords : List String :=
  ["excellent", "great", "exactly", "perfect", "wonderful", "yes", "good"]

/-- The negative cue-word list of NPCAgent._analyze_sentiment. -/
def negative_keywords : List String :=
  ["concern", "however", "but", "careful", "issue", "problem"]

/-- NPCAgent._analyze_sentiment: `sum(1 for kw in keywords if kw in lower)`
counts the cue words that occur at least once as substrings. -/
def analyze_sentiment (response_text : String) : String :=
  let response_lower := pyLower response_text
  let pos_count := positive_keywords.countP (fun kw => pyContains response_lower kw)
  let neg_count := negative_keywords.countP (fun kw => pyContains response_lower kw)
  if neg_count < pos_count then "positive"
  else if pos_count < neg_count then "negative"
  else "neutral"

/-- NPCAgent._update_relationship: lazily create the relationship, apply the
sentiment delta through update_relationship_score, record the sentiment. -/
def update_relationship (persona_id : String) (s : SessionStateM) (sentiment : String) :
    SessionStateM :=
  let s1 :=
    if (assocLookup persona_id s.relationships).isNone then
      { s with relationships := s.relationships ++ [(persona_id, mkRelationshipState persona_id)] }
    else s
  let delta : Int :=
    if sentiment = "positive" then 1
    else if sentiment = "negative" then -1
    else 0
  let s2 := update_relationship_score s1 persona_id delta
  let setSent := fun r : RelationshipStateM => { r with last_sentiment := some sentiment }
  { s2 with relationships := assocUpdate persona_id setSent s2.relationships }

/-- NPCAgent._build_system_prompt. -/
def build_system_prompt (persona : PersonaConfigM) (s : SessionStateM) : String :=
  let m := s.progress.current_module
  let mc0 := "\n\n## Current Context\nThe user is in Module " ++ toString m ++ "."
  let mc1 :=
    if m = 1 then mc0 ++ "\nFocus: Defining Group DNA and Competency Framework."
    else if m = 2 then mc0 ++ "\nFocus: Designing 360° feedback and coaching program."
    else if m = 3 then mc0 ++ "\nFocus: Cascading and measuring adoption."
    else mc0
  let mc2 :=
    match assocLookup persona.npc_id s.relationships with
    | some rel =>
      if 5 < rel.score then
        mc1 ++ "\n\nRelationship: Warm and collaborative. Share more stories."
      else if rel.score < -2 then
        mc1 ++ "\n\nRelationship: Strained. Be more formal but still helpful."
      else mc1
    | none => mc1
  let ct := s.progress.current_task.getD ""
  let mc3 :=
    if ct ≠ "" then mc2 ++ "\n\nCurrent task user is working on: " ++ ct
    else mc2
  persona.system_prompt ++ mc3

/-- NPCAgent._build_message_history: last 10 history entries restricted to
user and assistant roles, as (role, content) pairs, with the new user
message appended. -/
def build_message_history (s : SessionStateM) (user_message : String) :
    List (String × String) :=
  let recent := get_recent_history s 10
  (recent.filter (fun m => m.role = "user" || m.role = "assistant")).map
      (fun m => (m.role, m.content)) ++
    [("user", user_message)]

/-- NPCAgent.process_message.  The completion call (steps 2-3) is abstracted
by the `llm` parameter, a function from the assembled system prompt and
role-tagged message sequence to the generated reply text; everything else
follows the source line by line. -/
def process_message (persona : PersonaConfigM)
    (llm : String → List (String × String) → String)
    (user_message : String) (session_state : SessionStateM) :
    String × SessionStateM × List String :=
  let safety_flags := safety_check user_message
  if safety_flags.contains "jailbreak" || safety_flags.contains "profanity" then
    (generate_safety_response persona safety_flags, session_state, safety_flags)
  else
    let system_prompt := build_system_prompt persona session_state
    let messages := build_message_history session_state user_message
    let response_text := llm system_prompt messages
    let sentiment := analyze_sentiment response_text
    let s1 := update_relationship persona.npc_id session_state sentiment
    let user_msg : MessageM :=
      { role := "user", content := user_message, npc_id := none, metadata := [] }
    let assistant_msg : MessageM :=
      { role := "assistant", content := response_text, npc_id := some persona.npc_id,
        metadata := [("sentiment", sentiment)] }
    let s2 := add_message s1 user_msg
    let s3 := add_message s2 assistant_msg
    let s4 := { s3 with active_npc := some persona.npc_id }
    (response_text, s4, safety_flags)

/- ===================== Director agent (src/agents/director_agent.py) ===================== -/

/-- The per-module on-topic keyword table of DirectorAgent._is_off_topic
(`module_keywords.get(current_module, [])`). -/
def module_keywords (m : Int) : List String :=
  if m = 1 then
    ["competency", "framework", "vision", "entrepreneurship", "passion",
     "trust", "dna", "brand", "talent", "leadership", "pillars"]
  else if m = 2 then
    ["360", "feedback", "coaching", "assessment", "rater", "survey",
     "questionnaire", "development", "program", "degree"]
  else if m = 3 then
    ["rollout", "cascade", "training", "implementation", "regional",
     "adoption", "measurement", "kpi", "train"]
  else []

/-- The forbidden-topic phrase list of DirectorAgent._is_off_topic. -/
def off_topic_patterns : List String :=
  ["favorite color", "weather", "sports", "movie", "food",
   "personal life", "weekend", "vacation", "hobby", "lunch",
   "dinner", "breakfast", "pet", "family"]

/-- DirectorAgent._is_off_topic. -/
def is_off_topic (user_message : String) (s : SessionStateM) : Bool :=
  let keywords := module_keywords s.progress.current_module
  let message_lower := pyLower user_message
  let match_count := keywords.countP (fun kw => pyContains message_lower kw)
  if off_topic_patterns.any (fun p => pyContains message_lower p) then true
  else if match_count = 0 ∧ 10 < wordCount user_message then true
  else false

/- ===================== Security service (src/services/security_service.py) ===================== -/

/-- TokenData, restricted to the fields consumed by authorization (the
expiry feeds only datetime comparison inside the external JWT library). -/
structure TokenDataM where
  user_id : String
  session_id : String
deriving Repr, DecidableEq

/-- SecurityService.verify_token, JWT-unavailable fallback branch (the only
token-verification logic implemented in this repository; the other branch
delegates to the external jwt library): accept any token with at least
three colon-separated parts, reading user and session ids from the first
two. -/
def verify_token (token : String) : Option TokenDataM :=
  let parts := pySplitColon token
  if 3 ≤ parts.length then
    some { user_id := parts.getD 0 "", session_id := parts.getD 1 "" }
  else none

/-- SecurityService.check_rate_limit over an explicit
(rate_limit_store, current time) state: timestamps are seconds as integers,
`now - req_time < timedelta(minutes=1)` becomes `now - t < 60`.  Returns
the admission verdict and the updated store. -/
def check_rate_limit (store : List (String × List Int)) (user_id endpoint : String)
    (now : Int) (limit_per_minute : Nat) : Bool × List (String × List Int) :=
  let key := user_id ++ "_" ++ endpoint
  let prev := (assocLookup key store).getD []
  let kept := prev.filter (fun t => now - t < 60)
  if limit_per_minute ≤ kept.length then
    (false, assocSet key kept store)
  else
    (true, assocSet key (kept ++ [now]) store)

/-- Run a sequence of check_rate_limit calls for one (user, endpoint) pair
at the given timestamps, collecting the verdicts in order. -/
def rate_limit_run (store : List (String × List Int)) (user_id endpoint : String)
    (times : List Int) (limit_per_minute : Nat) :
    List Bool × List (String × List Int) :=
  match times with
  | [] => ([], store)
  | t :: ts =>
    let r := check_rate_limit store user_id endpoint t limit_per_minute
    let rest := rate_limit_run r.2 user_id endpoint ts limit_per_minute
    (r.1 :: rest.1, rest.2)

/- ===================== Session manager (src/services/session_manager.py) ===================== -/

/-- SessionManager state: the backend flag and the two stores.  Stored JSON
blobs are modelled as the SessionState they deserialize to. -/
structure SessionManagerM where
  redis_enabled : Bool
  redis_store : List (String × SessionStateM)
  memory_store : List (String × SessionStateM)
deriving Repr, DecidableEq

/-- Python `key.replace("session:", "")` used when returning session ids. -/
def stripSessionKey (k : String) : String :=
  pyRemoveAll "session:" k

/-- The `scan_iter(match="session:*")` key filter. -/
def matchesSessionGlob (k : String) : Bool :=
  isPrefixOfB "session:".toList k.toList

/-- SessionManager.get_all_sessions.  In the networked backend, keys
matching `session:*` are enumerated and, when a truthy user id is given,
each session is loaded and kept only if its user_id matches.  In the
in-memory fallback, every key is returned with no user filter. -/
def get_all_sessions (mgr : SessionManagerM) (user_id : Option String) : List String :=
  let uid := user_id.getD ""
  if mgr.redis_enabled then
    mgr.redis_store.filterMap (fun kv =>
      if matchesSessionGlob kv.1 then
        if uid ≠ "" then
          if kv.2.user_id = uid then some (stripSessionKey kv.1) else none
        else some (stripSessionKey kv.1)
      else none)
  else
    mgr.memory_store.map (fun kv => stripSessionKey kv.1)

/-- SessionManager.save_session key construction, for building stores. -/
def session_key (session_id : String) : String :=
  "session:" ++ session_id

/- ===================== API routes (src/api/routes.py) ===================== -/

/-- verify_session: reject a missing or falsy (empty) Authorization header,
strip every occurrence of "Bearer " from it, and verify the remainder,
returning the token\x27s session id.  Both failure branches surface to the
caller as a 401 unauthorized error, modelled as `Except.error`. -/
def verify_session (authorization : Option String) : Except Unit String :=
  match authorization with
  | none => Except.error ()
  | some a =>
    if a = "" then Except.error ()
    else
      let token := pyRemoveAll "Bearer " a
      match verify_token token with
      | some token_data => Except.ok token_data.session_id
      | none => Except.error ()

/- ===================== Validators (src/utils/validators.py) ===================== -/

/-- truncate_text: return the text unchanged when it fits, else slice to
`max_length - len(suffix)` (a Python slice, so negative bounds count from
the end) and append the suffix. -/
def truncate_text (text : String) (max_length : Int) (suffix : String) : String :=
  if (text.length : Int) ≤ max_length then text
  else pySliceTo text (max_length - (suffix.length : Int)) ++ suffix

/- ===================== Helper lemmas ===================== -/

/-- All relationship scores of a session lie in the pydantic bounds. -/
def ScoresInRange (s : SessionStateM) : Prop :=
  ∀ p ∈ s.relationships, -10 ≤ p.2.score ∧ p.2.score ≤ 10

instance scoresInRangeDecidable (s : SessionStateM) : Decidable (ScoresInRange s) :=
  List.decidableBAll _ s.relationships

/-- Fold a sequence of score deltas for one NPC through
update_relationship_score. -/
def applyDeltas (s : SessionStateM) (npc : String) (deltas : List Int) : SessionStateM :=
  deltas.foldl (fun st d => update_relationship_score st npc d) s

theorem assocUpdate_forall {α : Type} {P : α → Prop} {k : String} {f : α → α}
    (hf : ∀ a, P (f a)) :
    ∀ l : List (String × α), (∀ p ∈ l, P p.2) → ∀ p ∈ assocUpdate k f l, P p.2 := by
  intro l
  induction l with
  | nil => intro _ p hp; simp [assocUpdate] at hp
  | cons hd tl ih =>
    intro hall p hp
    obtain ⟨k2, v⟩ := hd
    simp only [assocUpdate] at hp
    by_cases hk : k2 = k
    · rw [if_pos hk] at hp
      rcases List.mem_cons.mp hp with h1 | h2
      · subst h1; exact hf v
      · exact hall _ (List.mem_cons_of_mem _ h2)
    · rw [if_neg hk] at hp
      rcases List.mem_cons.mp hp with h1 | h2
      · subst h1; exact hall _ (List.mem_cons_self _ _)
      · exact ih (fun q hq => hall q (List.mem_cons_of_mem _ hq)) _ h2

theorem clamp_range (x : Int) :
    -10 ≤ max (-10) (min 10 x) ∧ max (-10) (min 10 x) ≤ 10 :=
  ⟨le_max_left _ _, max_le (by norm_num) (min_le_left _ _)⟩

theorem update_relationship_score_range (s : SessionStateM) (npc : String) (delta : Int)
    (h : ScoresInRange s) : ScoresInRange (update_relationship_score s npc delta) := by
  have hrels : ∀ p ∈ (if (assocLookup npc s.relationships).isNone then
      s.relationships ++ [(npc, mkRelationshipState npc)] else s.relationships),
      -10 ≤ p.2.score ∧ p.2.score ≤ 10 := by
    split
    · intro p hp
      rcases List.mem_append.mp hp with h1 | h2
      · exact h p h1
      · rcases List.mem_singleton.mp h2 with rfl
        exact ⟨by norm_num [mkRelationshipState], by norm_num [mkRelationshipState]⟩
    · exact h
  intro p hp
  simp only [update_relationship_score] at hp
  exact assocUpdate_forall
    (P := fun r : RelationshipStateM => -10 ≤ r.score ∧ r.score ≤ 10)
    (fun a => clamp_range _) _ hrels p hp

theorem applyDeltas_range (deltas : List Int) : ∀ (s : SessionStateM) (npc : String),
    ScoresInRange s → ScoresInRange (applyDeltas s npc deltas) := by
  induction deltas with
  | nil => intro s npc h; exact h
  | cons d ds ih =>
    intro s npc h
    exact ih (update_relationship_score s npc d) npc
      (update_relationship_score_range s npc d h)

/- ===================== Claims ===================== -/

set_option maxRecDepth 10000 in
/-- C1: under update_relationship_score every relationship score stays an
integer in [-10, 10] across any sequence of updates, and from a fresh
relationship 15 consecutive +1 updates end at exactly 10 while 15
consecutive -1 updates end at exactly -10. -/
theorem C1_relationship_score_clamped :
    (∀ (s : SessionStateM) (npc : String) (deltas : List Int),
        ScoresInRange s → ScoresInRange (applyDeltas s npc deltas)) ∧
    (assocLookup "chro"
        (applyDeltas (mkSessionState "s" "u") "chro"
          (List.replicate 15 1)).relationships).map RelationshipStateM.score = some 10 ∧
    (assocLookup "chro"
        (applyDeltas (mkSessionState "s" "u") "chro"
          (List.replicate 15 (-1))).relationships).map RelationshipStateM.score = some (-10) :=
  ⟨fun s npc deltas h => applyDeltas_range deltas s npc h, by decide, by decide⟩

/-- Witness for C1 at a concrete session, NPC and delta sequence. -/
theorem C1_relationship_score_clamped_witness :
    ScoresInRange (applyDeltas (mkSessionState "w" "v") "ceo" [1, 1, -1, 7]) :=
  C1_relationship_score_clamped.1 (mkSessionState "w" "v") "ceo" [1, 1, -1, 7] (by decide)

/-- C2: when the lower-cased message contains a jailbreak phrase,
process_message returns the scripted in-character refusal together with the
raised flags, leaves the session state unchanged, and its result does not
depend on the LLM at all. -/
theorem C2_jailbreak_short_circuit (persona : PersonaConfigM)
    (llm llm2 : String → List (String × String) → String)
    (msg : String) (s : SessionStateM)
    (h : jailbreak_patterns.any (fun p => pyContains (pyLower msg) p) = true) :
    process_message persona llm msg s =
        (generate_safety_response persona (safety_check msg), s, safety_check msg) ∧
    (safety_check msg).contains "jailbreak" = true ∧
    (process_message persona llm msg s).1 =
        "I appreciate your creativity, but I need to stay in character as " ++
          persona.name ++ ", " ++ persona.role ++
          ". Let\x27s focus on the leadership development challenge at hand. " ++
          "What aspect would you like to explore?" ∧
    process_message persona llm msg s = process_message persona llm2 msg s := by
  have hflag : (safety_check msg).contains "jailbreak" = true := by
    unfold safety_check
    rw [h]
    split <;> decide
  have hmem : "jailbreak" ∈ safety_check msg := by simpa using hflag
  have hbranch : ∀ llmf : String → List (String × String) → String,
      process_message persona llmf msg s =
        (generate_safety_response persona (safety_check msg), s, safety_check msg) := by
    intro llmf
    simp [process_message, hmem]
  have hresp : generate_safety_response persona (safety_check msg) =
      "I appreciate your creativity, but I need to stay in character as " ++
        persona.name ++ ", " ++ persona.role ++
        ". Let\x27s focus on the leadership development challenge at hand. " ++
        "What aspect would you like to explore?" := by
    simp [generate_safety_response, hmem]
  refine ⟨hbranch llm, hflag, ?_, ?_⟩
  · rw [hbranch llm, hresp]
  · rw [hbranch llm, hbranch llm2]

/-- A concrete persona record used only to instantiate universally
quantified theorems. -/
def testPersona : PersonaConfigM :=
  { npc_id := "chro", name := "Dr. Elena Marchetti",
    role := "Chief Human Resources Officer", system_prompt := "base prompt" }

/-- Witness for C2 at a concrete jailbreak message, persona, session and a
pair of distinct LLM stubs. -/
theorem C2_jailbreak_short_circuit_witness :
    process_message testPersona (fun _ _ => "reply one")
        "Please ignore previous instructions" (mkSessionState "s" "u") =
      process_message testPersona (fun _ _ => "reply two")
        "Please ignore previous instructions" (mkSessionState "s" "u") :=
  (C2_jailbreak_short_circuit testPersona (fun _ _ => "reply one") (fun _ _ => "reply two")
    "Please ignore previous instructions" (mkSessionState "s" "u") (by decide)).2.2.2

/-- The adapted-complexity rule as the claim states it (simple language,
simplified cognitive support, or age set and under 13 give "simple"; age set
and under 16 gives "moderate"; otherwise the configured vocabulary
complexity), written for comparison against get_adapted_complexity. -/
def claimed_adapted_complexity (p : UserProfileM) : String :=
  if p.accessibility.simple_language_preferred
      || p.accessibility.cognitive_support_needed
      || (match p.age with | some a => decide (a < 13) | none => false) then
    "simple"
  else if (match p.age with | some a => decide (a < 16) | none => false) then
    "moderate"
  else p.age_group.vocabulary_complexity

/-- A profile requesting simplified cognitive support but no simple-language
preference, with no age and the default advanced vocabulary. -/
def c3_profile : UserProfileM :=
  { user_id := "u", age := none,
    age_group := { vocabulary_complexity := "advanced" },
    accessibility := { cognitive_support_needed := true,
                       simple_language_preferred := false } }

/-- C3 fails on the code: the claim derives "simple" from the
cognitive-support flag, but get_adapted_complexity never consults that flag
and returns the configured vocabulary complexity. -/
theorem C3_adapted_complexity_counterexample :
    claimed_adapted_complexity c3_profile = "simple" ∧
    get_adapted_complexity c3_profile = "advanced" ∧
    get_adapted_complexity c3_profile ≠ claimed_adapted_complexity c3_profile := by
  decide

/-- C3 amended: the adapted complexity is "simple" when the simple-language
preference is set or the age is set to a nonzero value under 13, "moderate"
when the age is set to a nonzero value under 16, and otherwise the
configured vocabulary complexity; simplified cognitive support plays no
role. -/
theorem C3_adapted_complexity_amended (p : UserProfileM) :
    get_adapted_complexity p =
      if p.accessibility.simple_language_preferred || ageTruthyLt p.age 13 then "simple"
      else if ageTruthyLt p.age 16 then "moderate"
      else p.age_group.vocabulary_complexity := by
  by_cases h1 : p.accessibility.simple_language_preferred <;>
    by_cases h2 : ageTruthyLt p.age 13 <;>
      simp [get_adapted_complexity, h1, h2]

/-- The sentiment rule as the claim states it: total occurrence counts of
the positive versus negative cue words in the lower-cased text, written for
comparison against analyze_sentiment. -/
def claimed_sentiment (t : String) : String :=
  let lower := pyLower t
  let pos := (positive_keywords.map (fun kw => occCount kw lower)).sum
  let neg := (negative_keywords.map (fun kw => occCount kw lower)).sum
  if neg < pos then "positive"
  else if pos < neg then "negative"
  else "neutral"

/-- C4 fails on the code: in "good good but" the positive occurrence count
(2) exceeds the negative occurrence count (1), so the claimed rule says
"positive", but analyze_sentiment counts each cue word at most once and
returns "neutral". -/
theorem C4_sentiment_counterexample :
    (negative_keywords.map (fun kw => occCount kw (pyLower "good good but"))).sum <
        (positive_keywords.map (fun kw => occCount kw (pyLower "good good but"))).sum ∧
    claimed_sentiment "good good but" = "positive" ∧
    analyze_sentiment "good good but" = "neutral" ∧
    analyze_sentiment "good good but" ≠ "positive" := by
  decide

/-- Number of positive cue words occurring at least once in the lower-cased
text. -/
def presentPosCount (t : String) : Nat :=
  positive_keywords.countP (fun kw => pyContains (pyLower t) kw)

/-- Number of negative cue words occurring at least once in the lower-cased
text. -/
def presentNegCount (t : String) : Nat :=
  negative_keywords.countP (fun kw => pyContains (pyLower t) kw)

/-- C4 amended: analyze_sentiment compares how many of the 7 positive and 6
negative cue words occur at least once as substrings of the lower-cased
reply (each word counted at most once), returning "positive" exactly when
more positive than negative cue words are present, "negative" in the
opposite case, and "neutral" on ties. -/
theorem C4_sentiment_amended (t : String) :
    (analyze_sentiment t = "positive" ↔ presentNegCount t < presentPosCount t) ∧
    (analyze_sentiment t = "negative" ↔ presentPosCount t < presentNegCount t) ∧
    (analyze_sentiment t = "neutral" ↔ presentPosCount t = presentNegCount t) := by
  have heq : analyze_sentiment t =
      if presentNegCount t < presentPosCount t then "positive"
      else if presentPosCount t < presentNegCount t then "negative"
      else "neutral" := rfl
  rw [heq]
  split_ifs with h1 h2 <;>
    refine ⟨?_, ?_, ?_⟩ <;> constructor <;> intro hx <;> first
      | omega
      | (exact absurd hx (by decide))
      | rfl

theorem assocLookup_assocSet {α : Type} (k : String) (v : α) :
    ∀ l : List (String × α), assocLookup k (assocSet k v l) = some v := by
  intro l
  induction l with
  | nil => simp [assocSet, assocLookup]
  | cons hd tl ih =>
    obtain ⟨k2, v2⟩ := hd
    by_cases h : k2 = k <;> simp [assocSet, assocLookup, h, ih]

/-- The timestamps of one (user, endpoint) key surviving the 60-second
window at time `now`. -/
def keptTimestamps (store : List (String × List Int)) (user_id endpoint : String)
    (now : Int) : List Int :=
  ((assocLookup (user_id ++ "_" ++ endpoint) store).getD []).filter
    (fun t => now - t < 60)

/-- C5: check_rate_limit first discards timestamps at least 60 seconds old,
admits exactly when fewer than the limit remain, records the admitted
request, and with a limit of 3 five rapid calls for one key produce
admissions [true, true, true, false, false] in order. -/
theorem C5_rate_limit_window (store : List (String × List Int))
    (user_id endpoint : String) (now : Int) (limit_per_minute : Nat) :
    ((check_rate_limit store user_id endpoint now limit_per_minute).1 =
        decide ((keptTimestamps store user_id endpoint now).length < limit_per_minute)) ∧
    (assocLookup (user_id ++ "_" ++ endpoint)
        (check_rate_limit store user_id endpoint now limit_per_minute).2 =
      some (if (keptTimestamps store user_id endpoint now).length < limit_per_minute then
              keptTimestamps store user_id endpoint now ++ [now]
            else keptTimestamps store user_id endpoint now)) ∧
    (rate_limit_run [] "u1" "chat" [0, 0, 0, 0, 0] 3).1 =
      [true, true, true, false, false] := by
  refine ⟨?_, ?_, by decide⟩ <;>
  · have heq : check_rate_limit store user_id endpoint now limit_per_minute =
        if limit_per_minute ≤ (keptTimestamps store user_id endpoint now).length then
          (false, assocSet (user_id ++ "_" ++ endpoint)
            (keptTimestamps store user_id endpoint now) store)
        else
          (true, assocSet (user_id ++ "_" ++ endpoint)
            (keptTimestamps store user_id endpoint now ++ [now]) store) := rfl
    rw [heq]
    by_cases h : limit_per_minute ≤ (keptTimestamps store user_id endpoint now).length
    · simp [h, assocLookup_assocSet, Nat.not_lt.mpr h]
    · simp [h, assocLookup_assocSet, Nat.lt_of_not_le h]

/-- The probe message of the off-topic scenario. -/
def pizza_message : String := "What\x27s your favorite pizza topping?"

/-- C6 fails on the code: at the default module-1 session the message is
classified on-topic, because no forbidden-topic phrase of
off_topic_patterns occurs in it ("favorite" alone is not a pattern), it has
zero keyword matches, and it is only 5 words long. -/
theorem C6_pizza_counterexample :
    is_off_topic pizza_message (mkSessionState "s" "u") = false ∧
    off_topic_patterns.any (fun p => pyContains (pyLower pizza_message) p) = false ∧
    wordCount pizza_message = 5 := by
  decide

/-- C6 amended: the Director classifies "What\x27s your favorite pizza
topping?" as on-topic (not off-topic) for every session state and module:
it contains no forbidden-topic phrase and, with only 5 words, the
zero-keyword-match rule cannot fire either. -/
theorem C6_pizza_on_topic_amended (s : SessionStateM) :
    is_off_topic pizza_message s = false := by
  have h1 : off_topic_patterns.any (fun p => pyContains (pyLower pizza_message) p) = false := by
    decide
  have h2 : wordCount pizza_message = 5 := by decide
  simp [is_off_topic, h1, h2]

/-- An in-memory-fallback session manager holding sessions of two users. -/
def c7_manager_memory : SessionManagerM :=
  { redis_enabled := false, redis_store := [],
    memory_store := [(session_key "s1", mkSessionState "s1" "alice"),
                     (session_key "s2", mkSessionState "s2" "bob")] }

/-- The same two sessions behind the networked-store backend. -/
def c7_manager_redis : SessionManagerM :=
  { redis_enabled := true, memory_store := [],
    redis_store := [(session_key "s1", mkSessionState "s1" "alice"),
                    (session_key "s2", mkSessionState "s2" "bob")] }

/-- C7: the networked backend honours the user filter, but the in-memory
fallback ignores it and returns every stored session id, contradicting the
docstring of get_all_sessions ("optionally filtered by user"). -/
theorem C7_memory_filter_ignored :
    get_all_sessions c7_manager_memory (some "alice") = ["s1", "s2"] ∧
    get_all_sessions c7_manager_redis (some "alice") = ["s1"] := by
  decide

theorem assocLookup_append_none {α : Type} (k : String) (l1 l2 : List (String × α))
    (h : assocLookup k l1 = none) : assocLookup k (l1 ++ l2) = assocLookup k l2 := by
  induction l1 with
  | nil => rfl
  | cons hd tl ih =>
    obtain ⟨k2, v⟩ := hd
    by_cases hk : k2 = k
    · simp [assocLookup, hk] at h
    · simp only [assocLookup, if_neg hk] at h
      simp only [List.cons_append, assocLookup, if_neg hk]
      exact ih h

theorem assocLookup_assocUpdate {α : Type} (k k2 : String) (f : α → α) :
    ∀ l : List (String × α), assocLookup k (assocUpdate k2 f l) =
      if k2 = k then (assocLookup k l).map f else assocLookup k l := by
  intro l
  induction l with
  | nil => simp [assocLookup, assocUpdate]
  | cons hd tl ih =>
    obtain ⟨k3, v⟩ := hd
    by_cases h32 : k3 = k2
    · subst h32
      by_cases h3k : k3 = k
      · subst h3k; simp [assocUpdate, assocLookup]
      · simp [assocUpdate, assocLookup, h3k]
    · by_cases h3k : k3 = k
      · subst h3k
        have hk2 : k2 ≠ k3 := fun he => h32 he.symm
        simp [assocUpdate, assocLookup, h32, hk2]
      · simp [assocUpdate, assocLookup, h32, h3k, ih]

theorem add_message_history (s : SessionStateM) (m : MessageM) :
    (add_message s m).conversation_history = s.conversation_history ++ [m] := by
  unfold add_message
  dsimp only
  split <;> rfl

theorem add_message_preserves_sentiment (s : SessionStateM) (m : MessageM) (k : String)
    (r : RelationshipStateM) (h : assocLookup k s.relationships = some r) :
    ∃ r2, assocLookup k (add_message s m).relationships = some r2 ∧
      r2.last_sentiment = r.last_sentiment := by
  unfold add_message
  dsimp only
  split
  · rw [assocLookup_assocUpdate]
    by_cases hk : m.npc_id.getD "" = k
    · rw [if_pos hk, h]
      exact ⟨_, rfl, rfl⟩
    · rw [if_neg hk]
      exact ⟨r, h, rfl⟩
  · exact ⟨r, h, rfl⟩

theorem update_relationship_history (pid : String) (s : SessionStateM) (sent : String) :
    (update_relationship pid s sent).conversation_history = s.conversation_history := by
  by_cases h : (assocLookup pid s.relationships).isNone = true
  · simp [update_relationship, update_relationship_score, h]
  · simp [update_relationship, update_relationship_score, h]

theorem update_relationship_sets_sentiment (pid : String) (s : SessionStateM) (sent : String) :
    ∃ r, assocLookup pid (update_relationship pid s sent).relationships = some r ∧
      r.last_sentiment = some sent := by
  have hs1 : ∃ r1, assocLookup pid
      (if (assocLookup pid s.relationships).isNone then
        { s with relationships := s.relationships ++ [(pid, mkRelationshipState pid)] }
      else s).relationships = some r1 := by
    by_cases h : (assocLookup pid s.relationships).isNone = true
    · rw [if_pos h]
      have hnone : assocLookup pid s.relationships = none := by
        cases hlk : assocLookup pid s.relationships with
        | none => rfl
        | some r => rw [hlk] at h; simp at h
      dsimp only
      rw [assocLookup_append_none pid _ _ hnone]
      exact ⟨mkRelationshipState pid, by simp [assocLookup]⟩
    · cases hlk : assocLookup pid s.relationships with
      | none => rw [hlk] at h; simp at h
      | some r1 =>
        simp only [Option.isNone_some, Bool.false_eq_true, if_false]
        exact ⟨r1, hlk⟩
  obtain ⟨r1, hr1⟩ := hs1
  unfold update_relationship update_relationship_score
  dsimp only
  have hnn : ¬((assocLookup pid
      (if (assocLookup pid s.relationships).isNone then
        { s with relationships := s.relationships ++ [(pid, mkRelationshipState pid)] }
      else s).relationships).isNone = true) := by
    rw [hr1]; simp
  rw [if_neg hnn, assocLookup_assocUpdate, if_pos rfl, assocLookup_assocUpdate, if_pos rfl, hr1]
  exact ⟨_, rfl, rfl⟩

/-- The reply the normal path of process_message obtains from the LLM for a
given persona, message and session. -/
def npc_reply (persona : PersonaConfigM) (llm : String → List (String × String) → String)
    (msg : String) (s : SessionStateM) : String :=
  llm (build_system_prompt persona s) (build_message_history s msg)

/-- C8: an over-long message with no jailbreak phrase is flagged
["too_long"] but not short-circuited: process_message still calls the LLM,
appends exactly the user and assistant turns to the history, updates the
persona relationship with the reply sentiment, and sets the active NPC. -/
theorem C8_too_long_proceeds (persona : PersonaConfigM)
    (llm : String → List (String × String) → String)
    (msg : String) (s : SessionStateM)
    (h1 : 2000 < msg.length)
    (h2 : jailbreak_patterns.any (fun p => pyContains (pyLower msg) p) = false) :
    (process_message persona llm msg s).2.2 = ["too_long"] ∧
    (process_message persona llm msg s).1 = npc_reply persona llm msg s ∧
    (process_message persona llm msg s).2.1.conversation_history =
      s.conversation_history ++
        [{ role := "user", content := msg, npc_id := none, metadata := [] },
         { role := "assistant", content := npc_reply persona llm msg s,
           npc_id := some persona.npc_id,
           metadata := [("sentiment", analyze_sentiment (npc_reply persona llm msg s))] }] ∧
    (process_message persona llm msg s).2.1.active_npc = some persona.npc_id ∧
    (∃ r, assocLookup persona.npc_id (process_message persona llm msg s).2.1.relationships =
        some r ∧
      r.last_sentiment = some (analyze_sentiment (npc_reply persona llm msg s))) := by
  have hflags : safety_check msg = ["too_long"] := by
    unfold safety_check
    rw [h2]
    simp [h1]
  refine ⟨?_, ?_, ?_, ?_, ?_⟩
  · simp [process_message, hflags]
  · simp [process_message, hflags, npc_reply]
  · simp only [process_message, hflags]
    norm_num
    rw [add_message_history, add_message_history, update_relationship_history]
    simp [npc_reply]
  · simp [process_message, hflags]
  · simp only [process_message, hflags]
    norm_num
    obtain ⟨r, hr, hsent⟩ :=
      update_relationship_sets_sentiment persona.npc_id s
        (analyze_sentiment (npc_reply persona llm msg s))
    obtain ⟨r2, hr2, hs2⟩ := add_message_preserves_sentiment _
      { role := "user", content := msg, npc_id := none, metadata := [] } _ _ hr
    obtain ⟨r3, hr3, hs3⟩ := add_message_preserves_sentiment _
      { role := "assistant", content := npc_reply persona llm msg s,
        npc_id := some persona.npc_id,
        metadata := [("sentiment", analyze_sentiment (npc_reply persona llm msg s))] } _ _ hr2
    exact ⟨r3, hr3, by rw [hs3, hs2, hsent]⟩

/-- A 2001-character message with no jailbreak phrase. -/
def c8_long_message : String := String.mk (List.replicate 2001 'a')

theorem c8_long_message_length : 2000 < c8_long_message.length := by
  show 2000 < (List.replicate 2001 'a').length
  rw [List.length_replicate]
  omega

theorem containsSub_head_ne_replicate (d : Char) (nd : List Char) (c : Char)
    (h : (d == c) = false) :
    ∀ n : Nat, containsSub (d :: nd) (List.replicate n c) = false := by
  intro n
  induction n with
  | zero => rfl
  | succ m ih =>
    rw [List.replicate_succ, containsSub]
    simp [isPrefixOfB, h, ih]

theorem contains_replicate_false (p : String) (n : Nat)
    (h : ((p.toList.head?.getD 'a') == 'a') = false) :
    containsSub p.toList (List.replicate n 'a') = false := by
  cases hp : p.toList with
  | nil => rw [hp] at h; simp at h
  | cons d nd =>
    rw [hp] at h
    simp only [List.head?_cons, Option.getD_some] at h
    exact containsSub_head_ne_replicate d nd 'a' h n

theorem c8_lower_toList : (pyLower c8_long_message).toList = List.replicate 2001 'a' := by
  show List.map Char.toLower (List.replicate 2001 'a') = List.replicate 2001 'a'
  rw [List.map_replicate]
  rfl

theorem c8_long_message_no_jailbreak :
    jailbreak_patterns.any (fun p => pyContains (pyLower c8_long_message) p) = false := by
  simp only [jailbreak_patterns, List.any_cons, List.any_nil, pyContains, c8_lower_toList,
    Bool.or_eq_false_iff]
  refine ⟨?_, ?_, ?_, ?_, ?_, ?_, ?_, ?_, trivial⟩ <;>
    exact contains_replicate_false _ 2001 (by decide)

/-- Witness for C8 at a concrete over-long message. -/
theorem C8_too_long_proceeds_witness :
    (process_message testPersona (fun _ _ => "Understood.") c8_long_message
        (mkSessionState "s" "u")).2.2 = ["too_long"] :=
  (C8_too_long_proceeds testPersona (fun _ _ => "Understood.") c8_long_message
    (mkSessionState "s" "u") c8_long_message_length c8_long_message_no_jailbreak).1

theorem isPrefixOfB_append_self : ∀ l r : List Char, isPrefixOfB l (l ++ r) = true := by
  intro l r
  induction l with
  | nil => rfl
  | cons c t ih => simp [isPrefixOfB, ih]

theorem removeAllAux_not_contains (old : List Char) :
    ∀ s : List Char, containsSub old s = false → removeAllAux old s 0 = s := by
  intro s
  induction s with
  | nil => intro _; rfl
  | cons c t ih =>
    intro h
    rw [containsSub, Bool.or_eq_false_iff] at h
    rw [removeAllAux, if_neg (by simp [h.1]), ih h.2]

theorem removeAllAux_skip (old : List Char) :
    ∀ l rest : List Char, removeAllAux old (l ++ rest) l.length = removeAllAux old rest 0 := by
  intro l
  induction l with
  | nil => intro rest; rfl
  | cons c t ih => intro rest; simpa [removeAllAux] using ih rest

theorem removeAllAux_prefix (old rest : List Char) (hne : old ≠ []) :
    removeAllAux old (old ++ rest) 0 = removeAllAux old rest 0 := by
  obtain ⟨c, o, rfl⟩ : ∃ c o, old = c :: o := by
    cases old with
    | nil => exact absurd rfl hne
    | cons c o => exact ⟨c, o, rfl⟩
  rw [List.cons_append, removeAllAux,
    if_pos ⟨hne, by rw [← List.cons_append]; exact isPrefixOfB_append_self _ _⟩]
  simpa using removeAllAux_skip (c :: o) o rest

theorem pyRemoveAll_of_not_contains (old s : String) (h : pyContains s old = false) :
    pyRemoveAll old s = s := by
  unfold pyContains at h
  unfold pyRemoveAll
  rw [removeAllAux_not_contains _ _ h]
  rfl

theorem string_append_toList (a b : String) : (a ++ b).toList = a.toList ++ b.toList := rfl

theorem pyRemoveAll_strip_front (old rest : String) (hne : old.toList ≠ [])
    (h : pyContains rest old = false) :
    pyRemoveAll old (old ++ rest) = rest := by
  unfold pyContains at h
  unfold pyRemoveAll
  rw [string_append_toList, removeAllAux_prefix _ _ hne, removeAllAux_not_contains _ _ h]
  rfl

/-- The valid fallback token whose session-id part contains "Bearer ". -/
def c9_token : String := "u:sBearer x:r"

/-- C9 fails on the code: this valid token carries session id "sBearer x",
yet sending it raw strips the embedded "Bearer " and authorizes session
"sx" instead of the same session id. -/
theorem C9_bearer_strip_counterexample :
    verify_token c9_token = some { user_id := "u", session_id := "sBearer x" } ∧
    verify_session (some c9_token) = Except.ok "sx" ∧
    ("sx" : String) ≠ "sBearer x" :=
  ⟨by decide, rfl, by decide⟩

/-- C9 amended: for every valid token not containing the substring
"Bearer ", the dependency accepts the raw token and the "Bearer "-prefixed
form alike, resolving both to the token\x27s session id; and it fails
exactly when the header is absent or the string left after stripping
"Bearer " fails token verification (an absent and an empty header coincide,
since the empty string never verifies). -/
theorem C9_bearer_amended :
    (∀ (t : String) (td : TokenDataM), pyContains t "Bearer " = false →
        verify_token t = some td →
        verify_session (some t) = Except.ok td.session_id ∧
        verify_session (some ("Bearer " ++ t)) = Except.ok td.session_id) ∧
    (∀ auth : Option String,
        (∃ e, verify_session auth = Except.error e) ↔
          (auth = none ∨ verify_token (pyRemoveAll "Bearer " (auth.getD "")) = none)) := by
  constructor
  · intro t td hnb hvt
    have ht_ne : ¬ (t = "") := by
      intro he
      rw [he] at hvt
      rw [show verify_token "" = none from by decide] at hvt
      cases hvt
    constructor
    · simp only [verify_session]
      rw [if_neg ht_ne, pyRemoveAll_of_not_contains _ _ hnb, hvt]
    · have hne2 : ¬ ("Bearer " ++ t = "") := by
        intro he
        have hlen : ("Bearer " ++ t).toList.length = 0 := by rw [he]; rfl
        rw [string_append_toList, List.length_append] at hlen
        simp at hlen
      simp only [verify_session]
      rw [if_neg hne2, pyRemoveAll_strip_front _ _ (by decide) hnb, hvt]
  · intro auth
    cases auth with
    | none =>
      constructor
      · intro _; exact Or.inl rfl
      · intro _; exact ⟨(), rfl⟩
    | some a =>
      by_cases ha : a = ""
      · subst ha
        constructor
        · intro _
          exact Or.inr (by decide)
        · intro _
          exact ⟨(), rfl⟩
      · cases hv : verify_token (pyRemoveAll "Bearer " a) with
        | none =>
          constructor
          · intro _
            exact Or.inr (by simpa using hv)
          · intro _
            refine ⟨(), ?_⟩
            simp only [verify_session]
            rw [if_neg ha, hv]
        | some td =>
          constructor
          · rintro ⟨e, he⟩
            rw [show verify_session (some a) = Except.ok td.session_id from by
              simp only [verify_session]; rw [if_neg ha, hv]] at he
            cases he
          · rintro (h | h)
            · cases h
            · rw [show ((some a).getD "") = a from rfl] at h
              rw [h] at hv
              cases hv

/-- Witness for C9 at a concrete valid token with and without the prefix. -/
theorem C9_bearer_amended_witness :
    verify_session (some "u1:s1:tok9") = Except.ok "s1" ∧
    verify_session (some "Bearer u1:s1:tok9") = Except.ok "s1" :=
  C9_bearer_amended.1 "u1:s1:tok9" { user_id := "u1", session_id := "s1" }
    (by decide) (by decide)

/-- C10: with a budget at least as long as the suffix, truncate_text leaves
fitting text unchanged; over-long text becomes a string of exactly
max_length characters that ends with the suffix and whose front is the
first max_length - len(suffix) characters of the text. -/
theorem C10_truncate_text_spec (text suffix : String) (max_length : Int)
    (h : (suffix.length : Int) ≤ max_length) :
    ((text.length : Int) ≤ max_length → truncate_text text max_length suffix = text) ∧
    (max_length < (text.length : Int) →
      ((truncate_text text max_length suffix).length : Int) = max_length ∧
      truncate_text text max_length suffix =
        String.mk (text.toList.take (max_length - (suffix.length : Int)).toNat) ++ suffix ∧
      suffix.toList <:+ (truncate_text text max_length suffix).toList) := by
  constructor
  · intro hle
    unfold truncate_text
    rw [if_pos hle]
  · intro hgt
    have hne : ¬ ((text.length : Int) ≤ max_length) := not_le.mpr hgt
    have heq : truncate_text text max_length suffix =
        String.mk (text.toList.take (max_length - (suffix.length : Int)).toNat) ++ suffix := by
      unfold truncate_text
      rw [if_neg hne]
      simp only [pySliceTo]
      have hknn : ¬ (max_length - (suffix.length : Int) < 0) := by omega
      have hmin : min (max_length - (suffix.length : Int)) ((text.length : Int)) =
          max_length - (suffix.length : Int) := min_eq_left (by omega)
      rw [if_neg hknn, hmin]
    have htakelen : (text.toList.take (max_length - (suffix.length : Int)).toNat).length =
        (max_length - (suffix.length : Int)).toNat := by
      rw [List.length_take]
      apply min_eq_left
      have hdata : text.toList.length = text.length := rfl
      omega
    refine ⟨?_, heq, ?_⟩
    · rw [heq]
      have happ : (String.mk (text.toList.take (max_length - (suffix.length : Int)).toNat)
          ++ suffix).length =
          (text.toList.take (max_length - (suffix.length : Int)).toNat).length +
            suffix.length := by
        show (text.toList.take (max_length - (suffix.length : Int)).toNat
          ++ suffix.data).length = _
        rw [List.length_append]
        rfl
      rw [happ, htakelen]
      omega
    · rw [heq]
      show suffix.toList <:+
        (text.toList.take (max_length - (suffix.length : Int)).toNat ++ suffix.toList)
      exact List.suffix_append _ _

/-- Witness for C10 at a concrete over-long text, budget and suffix. -/
theorem C10_truncate_text_spec_witness :
    ((truncate_text "hello world, this is a test" 10 "...").length : Int) = 10 :=
  ((C10_truncate_text_spec "hello world, this is a test" "..." 10 (by decide)).2
    (by decide)).1
